import Mathlib

/-!
# Open Golf Coach: the C++ wrapper and the Unreal binding

A shallow embedding of

* `bindings/cpp/opengolfcoach.h`: the C declaration `calculate_derived_values_ffi` and the
  C++ wrapper `OpenGolfCoach::calculateDerivedValues`;
* `bindings/unreal/OpenGolfCoach.h`, `bindings/unreal/OpenGolfCoach.cpp`: the struct
  `FGolfShotData` and the class `UOpenGolfCoachLibrary` (`LoadLibrary`, `UnloadLibrary`,
  `CalculateDerivedValues`).

Conventions of the embedding.

* A pointer is a `Nat`; `0` is `nullptr`.
* The two static members of `UOpenGolfCoachLibrary` are an explicit state, `LibState`.
* What the binding calls but does not define (the engine function behind the C
  declaration, the platform layer `FPlatformProcess`, `FPaths`, the JSON reader and writer,
  the conversion from `double` to `float`) is an explicit parameter: `FfiFn` for the wrapper,
  the record `Env` for the Unreal binding. Every theorem quantified over `Env` holds for
  every behaviour of those collaborators.
* Calls into the platform layer and through the function pointer are recorded in a trace.
* `UE_LOG` lines are not modelled.
-/

/-! ## Shared: C strings -/

/-- The NUL character that terminates a C string. -/
def NUL : Char := Char.ofNat 0

/-- The text a `char` array holds when it is read as a C string: the characters before the
first NUL. This is what `std::string(buffer.data())` and `UTF8_TO_TCHAR(OutputBuffer)` read. -/
def nullTerminatedText (buffer : List Char) : String :=
  String.mk (buffer.takeWhile (fun c => c != NUL))

/-- The C function `calculate_derived_values_ffi(json_input, output_buffer, buffer_size)` as a
caller sees it: from the input text, the contents of the output buffer before the call and the
size passed, the status code returned and the contents of the buffer after the call. -/
abbrev FfiFn := String → List Char → Nat → Int × List Char

/-! ## The C++ wrapper (`bindings/cpp/opengolfcoach.h`) -/

namespace OpenGolfCoach

/-- The exception class `GolfCalculationError`: a `std::runtime_error` with its message. -/
structure GolfCalculationError where
  what : String
  deriving DecidableEq, Repr

/-- The wrapper `calculateDerivedValues` (lines 61 to 89). The `switch` on the status code is
the chain of tests below; a thrown exception is `Except.error`. -/
def calculateDerivedValues (calculate_derived_values_ffi : FfiFn) (json_input : String) :
    Except GolfCalculationError String :=
  let buffer : List Char := List.replicate 8192 NUL
  let call := calculate_derived_values_ffi json_input buffer buffer.length
  let result : Int := call.1
  if result = 0 then Except.ok (nullTerminatedText call.2)
  else if result = -1 then Except.error ⟨"Null pointer error"⟩
  else if result = -2 then Except.error ⟨"Input string is not valid UTF-8"⟩
  else if result = -3 then Except.error ⟨"JSON parsing failed"⟩
  else if result = -4 then Except.error ⟨"JSON serialization failed"⟩
  else if result = -5 then Except.error ⟨"Output string conversion failed"⟩
  else if result = -6 then Except.error ⟨"Output buffer too small"⟩
  else Except.error ⟨"Unknown error"⟩

/-- The status that the boundary function returns for the call the wrapper makes. -/
def ffiStatus (calculate_derived_values_ffi : FfiFn) (json_input : String) : Int :=
  (calculate_derived_values_ffi json_input (List.replicate 8192 NUL) 8192).1

/-- The output buffer after the call the wrapper makes. -/
def ffiBuffer (calculate_derived_values_ffi : FfiFn) (json_input : String) : List Char :=
  (calculate_derived_values_ffi json_input (List.replicate 8192 NUL) 8192).2

/-- The six messages of the documented status codes, in the order -1 to -6. -/
def documentedMessages : List String :=
  ["Null pointer error", "Input string is not valid UTF-8", "JSON parsing failed",
   "JSON serialization failed", "Output string conversion failed", "Output buffer too small"]

/-- A boundary function for examples: it ignores its input, returns a fixed status and
leaves a fixed text, NUL terminated, at the start of the buffer. -/
def constantFfi (status : Int) (text : String) : FfiFn :=
  fun _ buffer _ => (status, text.toList ++ buffer.drop text.length)

end OpenGolfCoach

/-! ## Numbers -/

/-- A value of a C++ `float` or `double`. `finite m e` is the number `m * 2 ^ e`, which covers
every finite value of either type (and more: the type is a superset of the representable
values, so a theorem over all `FloatVal` holds for all of them). Negative zero is not
distinguished from zero: the two compare equal in both tests the code makes. A `float`
converts to `double` exactly, so that conversion is the identity here; the conversion from
`double` down to `float` rounds and is the parameter `Env.ToFloat`. -/
inductive FloatVal
  | finite (m e : Int)
  | posInf
  | negInf
  | nan
  deriving DecidableEq, Repr

namespace FloatVal

/-- The literal `0.0f`, the default of every field of `FGolfShotData`. -/
def zero : FloatVal := finite 0 0

/-- An integer as a float value. -/
def ofInt (n : Int) : FloatVal := finite n 0

/-- The C++ test `x > 0.0f`: false for zero, negative values, minus infinity and NaN. -/
def gtZero : FloatVal → Bool
  | finite m _ => decide (0 < m)
  | posInf => true
  | negInf => false
  | nan => false

/-- The C++ test `x != 0.0f`: false for zero only, true for NaN. -/
def neZero : FloatVal → Bool
  | finite m _ => decide (m ≠ 0)
  | posInf => true
  | negInf => true
  | nan => true

/-- The value is a finite number. -/
def isFinite : FloatVal → Bool
  | finite _ _ => true
  | _ => false

/-- The value is a finite number that is at least zero. -/
def isNonNegative : FloatVal → Bool
  | finite m _ => decide (0 ≤ m)
  | _ => false

/-- The value compares equal to zero (`x == 0.0f`). -/
def isZero : FloatVal → Bool
  | finite m _ => decide (m = 0)
  | _ => false

end FloatVal

/-! ## `FGolfShotData` (`bindings/unreal/OpenGolfCoach.h`, lines 12 to 43) -/

/-- The struct `FGolfShotData`: nine `float` fields, each defaulting to `0.0f`. -/
structure FGolfShotData where
  BallSpeedMetersPerSecond : FloatVal := FloatVal.zero
  VerticalLaunchAngleDegrees : FloatVal := FloatVal.zero
  HorizontalLaunchAngleDegrees : FloatVal := FloatVal.zero
  TotalSpinRPM : FloatVal := FloatVal.zero
  SpinAxisDegrees : FloatVal := FloatVal.zero
  CarryDistanceMeters : FloatVal := FloatVal.zero
  OfflineDistanceMeters : FloatVal := FloatVal.zero
  BackspinRPM : FloatVal := FloatVal.zero
  SidespinRPM : FloatVal := FloatVal.zero
  deriving DecidableEq, Repr

/-! ## JSON objects of the Unreal JSON library, as the binding uses them -/

/-- A JSON value as the binding uses it: a number, an object, or a value of another kind
(string, boolean, null, array) together with the number that `AsNumber` yields for it. -/
inductive FJsonValue
  | Number (Value : FloatVal)
  | Object (Values : List (String × FJsonValue))
  | Other (AsNumber : FloatVal)

/-- The class `FJsonObject`: a map from field name to value, kept as an association list in
which a name occurs at most once when built with `SetNumberField`. -/
abbrev FJsonObject := List (String × FJsonValue)

namespace FJsonObject

/-- The method `SetNumberField`: adds the field, replacing a field of the same name. -/
def SetNumberField (o : FJsonObject) (FieldName : String) (Number : FloatVal) : FJsonObject :=
  o.filter (fun p => p.1 != FieldName) ++ [(FieldName, FJsonValue.Number Number)]

/-- The method `HasField`: the object has a field of this name. -/
def HasField (o : FJsonObject) (FieldName : String) : Bool :=
  (o.lookup FieldName).isSome

/-- The method `GetNumberField` of the Unreal JSON library: the field as a number; `0.0` when
the field is missing or is an object. -/
def GetNumberField (o : FJsonObject) (FieldName : String) : FloatVal :=
  match o.lookup FieldName with
  | some (FJsonValue.Number v) => v
  | some (FJsonValue.Other n) => n
  | some (FJsonValue.Object _) => FloatVal.zero
  | none => FloatVal.zero

/-- The method `TryGetObjectField`: the nested object, when the field exists and is one. -/
def TryGetObjectField (o : FJsonObject) (FieldName : String) : Option FJsonObject :=
  match o.lookup FieldName with
  | some (FJsonValue.Object Values) => some Values
  | _ => none

/-- The number stored under a field name, when the field exists and is a number. -/
def numberAt (o : FJsonObject) (FieldName : String) : Option FloatVal :=
  match o.lookup FieldName with
  | some (FJsonValue.Number v) => some v
  | _ => none

end FJsonObject

/-! ## `UOpenGolfCoachLibrary` (`bindings/unreal/OpenGolfCoach.cpp`) -/

namespace UOpenGolfCoachLibrary

/-- The platform the binding is compiled for: which of `PLATFORM_WINDOWS`, `PLATFORM_MAC`,
`PLATFORM_LINUX` is set, or none of them. -/
inductive TargetPlatform
  | Windows
  | Mac
  | Linux
  | Unsupported
  deriving DecidableEq, Repr

/-- The collaborators of the binding that the repository does not define. One `Env` fixes
their behaviour for the duration of one call of the binding. -/
structure Env where
  /-- The compile-time platform. -/
  Platform : TargetPlatform
  /-- The result of `FPaths::ProjectPluginsDir()`. -/
  ProjectPluginsDir : String
  /-- The result of `FPlatformProcess::GetBinariesSubdirectory()`. -/
  GetBinariesSubdirectory : String
  /-- The function `FPaths::Combine`. -/
  Combine : List String → String
  /-- The function `FPlatformProcess::GetDllHandle`: the handle, `0` on failure. -/
  GetDllHandle : String → Nat
  /-- The function `FPlatformProcess::GetDllExport`: the address of the symbol, `0` when it
  is not found. -/
  GetDllExport : Nat → String → Nat
  /-- The text `FJsonSerializer::Serialize` writes for an object. -/
  Serialize : FJsonObject → String
  /-- A call through a function pointer that is not null: from the pointer, the input text
  and the buffer size, the status returned and the contents of the output buffer after the
  call. -/
  Invoke : Nat → String → Nat → Int × List Char
  /-- The function `FJsonSerializer::Deserialize`: its boolean result and the object pointer
  it leaves in `OutputObject` (`none` is the null pointer). -/
  Deserialize : String → Bool × Option FJsonObject
  /-- The conversion from `double` to `float` made by the assignments to the fields of
  `OutShotData`. -/
  ToFloat : FloatVal → FloatVal

/-- The static members `LibraryHandle` and `CalculateFunction` (lines 10 and 11). -/
structure LibState where
  LibraryHandle : Nat
  CalculateFunction : Nat
  deriving DecidableEq, Repr

/-- The state at program start: both members are `nullptr`. -/
def LibState.initial : LibState := ⟨0, 0⟩

/-- A call into the platform layer, or through `CalculateFunction`, with its arguments. -/
inductive PlatformCall
  | GetDllHandle (Filename : String)
  | GetDllExport (DllHandle : Nat) (ProcName : String)
  | FreeDllHandle (DllHandle : Nat)
  | Invoke (Function : Nat) (json_input : String) (buffer_size : Nat)
  deriving DecidableEq, Repr

/-- The file name chosen by the `#if` chain of `LoadLibrary` (lines 21 to 31); `none` is the
`#else` branch. -/
def LibraryName : TargetPlatform → Option String
  | TargetPlatform.Windows => some "opengolfcoach.dll"
  | TargetPlatform.Mac => some "libopengolfcoach.dylib"
  | TargetPlatform.Linux => some "libopengolfcoach.so"
  | TargetPlatform.Unsupported => none

/-- The path `LoadLibrary` builds for a file name (line 34). -/
def LibraryPath (env : Env) (Name : String) : String :=
  env.Combine [env.ProjectPluginsDir, "OpenGolfCoach/Binaries", env.GetBinariesSubdirectory, Name]

/-- What a call of `LoadLibrary` leaves: its return value, the state and the platform calls
it made, in order. -/
structure LoadResult where
  ret : Bool
  state : LibState
  calls : List PlatformCall
  deriving DecidableEq, Repr

/-- The function `LoadLibrary` (lines 13 to 57). -/
def LoadLibrary (env : Env) (s : LibState) : LoadResult :=
  if s.LibraryHandle ≠ 0 then
    ⟨true, s, []⟩
  else
    match LibraryName env.Platform with
    | none => ⟨false, s, []⟩
    | some Name =>
      let Path := LibraryPath env Name
      let Handle := env.GetDllHandle Path
      if Handle = 0 then
        ⟨false, { s with LibraryHandle := Handle }, [PlatformCall.GetDllHandle Path]⟩
      else
        let Function := env.GetDllExport Handle "calculate_derived_values_ffi"
        if Function = 0 then
          ⟨false, { LibraryHandle := 0, CalculateFunction := Function },
            [PlatformCall.GetDllHandle Path,
             PlatformCall.GetDllExport Handle "calculate_derived_values_ffi",
             PlatformCall.FreeDllHandle Handle]⟩
        else
          ⟨true, { LibraryHandle := Handle, CalculateFunction := Function },
            [PlatformCall.GetDllHandle Path,
             PlatformCall.GetDllExport Handle "calculate_derived_values_ffi"]⟩

/-- The function `UnloadLibrary` (lines 59 to 67): the state it leaves and the platform calls
it made. -/
def UnloadLibrary (s : LibState) : LibState × List PlatformCall :=
  if s.LibraryHandle ≠ 0 then
    (⟨0, 0⟩, [PlatformCall.FreeDllHandle s.LibraryHandle])
  else
    (s, [])

/-- Lines 76 to 98 of `CalculateDerivedValues`: the JSON object built from `ShotData`. -/
def buildRequest (ShotData : FGolfShotData) : FJsonObject :=
  let o : FJsonObject := []
  let o := if ShotData.BallSpeedMetersPerSecond.gtZero then
    o.SetNumberField "ball_speed_meters_per_second" ShotData.BallSpeedMetersPerSecond else o
  let o := if ShotData.VerticalLaunchAngleDegrees.neZero then
    o.SetNumberField "vertical_launch_angle_degrees" ShotData.VerticalLaunchAngleDegrees else o
  let o := if ShotData.HorizontalLaunchAngleDegrees.neZero then
    o.SetNumberField "horizontal_launch_angle_degrees" ShotData.HorizontalLaunchAngleDegrees
    else o
  let o := if ShotData.TotalSpinRPM.gtZero then
    o.SetNumberField "total_spin_rpm" ShotData.TotalSpinRPM else o
  let o := if ShotData.SpinAxisDegrees.neZero then
    o.SetNumberField "spin_axis_degrees" ShotData.SpinAxisDegrees else o
  let o := if ShotData.BackspinRPM.gtZero then
    o.SetNumberField "backspin_rpm" ShotData.BackspinRPM else o
  let o := if ShotData.SidespinRPM.neZero then
    o.SetNumberField "sidespin_rpm" ShotData.SidespinRPM else o
  o

/-- Lines 142 to 152 of `CalculateDerivedValues`: the body of the `if` on
`TryGetObjectField`, which writes four fields of `OutShotData` from the nested object. -/
def readDerivedObject (env : Env) (DerivedObject : FJsonObject) (OutShotData : FGolfShotData) :
    FGolfShotData :=
  let Out := OutShotData
  let Out := if DerivedObject.HasField "carry_distance_meters" then
    { Out with CarryDistanceMeters :=
        env.ToFloat (DerivedObject.GetNumberField "carry_distance_meters") }
    else Out
  let Out := if DerivedObject.HasField "offline_distance_meters" then
    { Out with OfflineDistanceMeters :=
        env.ToFloat (DerivedObject.GetNumberField "offline_distance_meters") }
    else Out
  let Out := if DerivedObject.HasField "backspin_rpm" then
    { Out with BackspinRPM := env.ToFloat (DerivedObject.GetNumberField "backspin_rpm") }
    else Out
  let Out := if DerivedObject.HasField "sidespin_rpm" then
    { Out with SidespinRPM := env.ToFloat (DerivedObject.GetNumberField "sidespin_rpm") }
    else Out
  Out

/-- Lines 125 to 136 of `CalculateDerivedValues`: the fields of `OutShotData` written from
the top level of the parsed response. -/
def readRootObject (env : Env) (OutputObject : FJsonObject) (OutShotData : FGolfShotData) :
    FGolfShotData :=
  let Out := { OutShotData with
    BallSpeedMetersPerSecond :=
      env.ToFloat (OutputObject.GetNumberField "ball_speed_meters_per_second") }
  let Out := { Out with
    VerticalLaunchAngleDegrees :=
      env.ToFloat (OutputObject.GetNumberField "vertical_launch_angle_degrees") }
  let Out := if OutputObject.HasField "horizontal_launch_angle_degrees" then
    { Out with HorizontalLaunchAngleDegrees :=
        env.ToFloat (OutputObject.GetNumberField "horizontal_launch_angle_degrees") }
    else Out
  let Out := if OutputObject.HasField "total_spin_rpm" then
    { Out with TotalSpinRPM := env.ToFloat (OutputObject.GetNumberField "total_spin_rpm") }
    else Out
  let Out := if OutputObject.HasField "spin_axis_degrees" then
    { Out with SpinAxisDegrees := env.ToFloat (OutputObject.GetNumberField "spin_axis_degrees") }
    else Out
  Out

/-- Lines 125 to 153 of `CalculateDerivedValues`: the fields of `OutShotData` written from
the parsed response, first from its top level, then from the object nested under
`open_golf_coach` when there is one. -/
def readResponse (env : Env) (OutputObject : FJsonObject) (OutShotData : FGolfShotData) :
    FGolfShotData :=
  let Out := readRootObject env OutputObject OutShotData
  match OutputObject.TryGetObjectField "open_golf_coach" with
  | some DerivedObject => readDerivedObject env DerivedObject Out
  | none => Out

/-- What a call of `CalculateDerivedValues` leaves: its return value, the value of the
reference parameter `OutShotData`, the state, and the platform calls made, in order. -/
structure CalcResult where
  ret : Bool
  OutShotData : FGolfShotData
  state : LibState
  calls : List PlatformCall
  deriving DecidableEq, Repr

/-- The function `CalculateDerivedValues` (lines 69 to 156). `OutShotData` is the value of the
reference parameter before the call. The result is `none` when the call on line 106 would go
through a null `CalculateFunction`, which C++ leaves undefined. -/
def CalculateDerivedValues (env : Env) (s : LibState) (ShotData OutShotData : FGolfShotData) :
    Option CalcResult :=
  let Load := LoadLibrary env s
  if Load.ret = false then
    some ⟨false, OutShotData, Load.state, Load.calls⟩
  else
    let InputJson := env.Serialize (buildRequest ShotData)
    if Load.state.CalculateFunction = 0 then
      none
    else
      let Call := env.Invoke Load.state.CalculateFunction InputJson 8192
      let calls := Load.calls ++ [PlatformCall.Invoke Load.state.CalculateFunction InputJson 8192]
      let Result : Int := Call.1
      if Result ≠ 0 then
        some ⟨false, OutShotData, Load.state, calls⟩
      else
        let OutputJson := nullTerminatedText Call.2
        match env.Deserialize OutputJson with
        | (true, some OutputObject) =>
          some ⟨true, readResponse env OutputObject OutShotData, Load.state, calls⟩
        | _ => some ⟨false, OutShotData, Load.state, calls⟩

/-- One call of the library, with the behaviour of the collaborators during that call. -/
inductive LibCall
  | Load (env : Env)
  | Unload
  | Calculate (env : Env) (ShotData OutShotData : FGolfShotData)

/-- The state after one call; `none` when the call is undefined. -/
def step (s : LibState) : LibCall → Option LibState
  | LibCall.Load env => some (LoadLibrary env s).state
  | LibCall.Unload => some (UnloadLibrary s).1
  | LibCall.Calculate env ShotData OutShotData =>
    (CalculateDerivedValues env s ShotData OutShotData).map (fun r => r.state)

/-- The state after a sequence of calls, from state `s`. -/
def run (s : LibState) : List LibCall → Option LibState
  | [] => some s
  | c :: cs => (step s c).bind (fun t => run t cs)

/-- The invariant of the two static members: one is null exactly when the other is. -/
def Consistent (s : LibState) : Prop :=
  s.LibraryHandle ≠ 0 ↔ s.CalculateFunction ≠ 0

instance (s : LibState) : Decidable (Consistent s) := by
  unfold Consistent; infer_instance

/-- The state after `LoadLibrary` has been called once for each element of `envs`. -/
def loadRepeatedly (s : LibState) : List Env → LibState
  | [] => s
  | env :: envs => loadRepeatedly (LoadLibrary env s).state envs

/-- The platform calls made by calling `LoadLibrary` once for each element of `envs`. -/
def loadRepeatedlyCalls (s : LibState) : List Env → List PlatformCall
  | [] => []
  | env :: envs => (LoadLibrary env s).calls ++ loadRepeatedlyCalls (LoadLibrary env s).state envs

/-- The call that line 106 makes once `LoadLibrary` has returned true: through the function
pointer left by `LoadLibrary`, with the serialized request and the size of `OutputBuffer`. Its
first component is the status, its second the output buffer after the call. -/
def boundaryCall (env : Env) (s : LibState) (ShotData : FGolfShotData) : Int × List Char :=
  env.Invoke (LoadLibrary env s).state.CalculateFunction (env.Serialize (buildRequest ShotData))
    8192

/-- The second example shot of `examples/unreal/GolfShotComponent.cpp` (lines 16 to 21):
ball speed 65, vertical launch 14, horizontal launch 1.5, backspin 3500, sidespin -800. -/
def ExampleShot2 : FGolfShotData :=
  { BallSpeedMetersPerSecond := FloatVal.ofInt 65
    VerticalLaunchAngleDegrees := FloatVal.ofInt 14
    HorizontalLaunchAngleDegrees := FloatVal.finite 3 (-1)
    BackspinRPM := FloatVal.ofInt 3500
    SidespinRPM := FloatVal.ofInt (-800) }

/-- A response to `ExampleShot2` in the layout the binding reads: the supplied fields echoed
at the top level, the derived fields nested under `open_golf_coach`. The derived numbers are
sample values that a `float` holds exactly: carry 150.5, offline -8.25, total spin 3590.25,
spin axis -12.875. -/
def exampleResponse2 : FJsonObject :=
  [("ball_speed_meters_per_second", FJsonValue.Number (FloatVal.ofInt 65)),
   ("vertical_launch_angle_degrees", FJsonValue.Number (FloatVal.ofInt 14)),
   ("horizontal_launch_angle_degrees", FJsonValue.Number (FloatVal.finite 3 (-1))),
   ("backspin_rpm", FJsonValue.Number (FloatVal.ofInt 3500)),
   ("sidespin_rpm", FJsonValue.Number (FloatVal.ofInt (-800))),
   ("open_golf_coach", FJsonValue.Object
     [("carry_distance_meters", FJsonValue.Number (FloatVal.finite 301 (-1))),
      ("offline_distance_meters", FJsonValue.Number (FloatVal.finite (-33) (-2))),
      ("backspin_rpm", FJsonValue.Number (FloatVal.ofInt 3500)),
      ("sidespin_rpm", FJsonValue.Number (FloatVal.ofInt (-800))),
      ("total_spin_rpm", FJsonValue.Number (FloatVal.finite 14361 (-2))),
      ("spin_axis_degrees", FJsonValue.Number (FloatVal.finite (-103) (-3)))])]

/-- An environment for examples: a Linux build in which the library opens at handle 1, the
symbol is found at address 2, the engine returns status 0, the reader parses the output to
`exampleResponse2`, and every number of the response is a `float` already. -/
def exampleEnv : Env :=
  { Platform := TargetPlatform.Linux
    ProjectPluginsDir := "Plugins"
    GetBinariesSubdirectory := "Linux"
    Combine := fun parts => String.intercalate "/" parts
    GetDllHandle := fun _ => 1
    GetDllExport := fun _ _ => 2
    Serialize := fun _ => "request"
    Invoke := fun _ _ _ => (0, "response".toList ++ [NUL])
    Deserialize := fun _ => (true, some exampleResponse2)
    ToFloat := fun v => v }

/-- The environment of `exampleEnv`, except that the symbol is not found in the library. -/
def exampleEnvNoSymbol : Env :=
  { exampleEnv with GetDllExport := fun _ _ => 0 }

/-- The environment of `exampleEnv`, except that the library does not open. -/
def exampleEnvNoLibrary : Env :=
  { exampleEnv with GetDllHandle := fun _ => 0 }

end UOpenGolfCoachLibrary

/-! ## The Spin Decomposer of the engine

The engine behind `calculate_derived_values_ffi` is not part of the binding sources; only its
declaration and its callers are. Its spin decomposition is modelled from the design text, over
the real numbers: the model is exact arithmetic, so it says nothing about the rounding of the
floating-point evaluation. -/

namespace SpinDecomposer

/-- Modelled from the spec: the conversion of an axis in degrees to radians, done before the
trigonometric functions are evaluated. The engine source is missing. -/
noncomputable def toRadians (degrees : ℝ) : ℝ := degrees * Real.pi / 180

/-- Modelled from the spec: the conversion of an angle in radians to degrees. The engine
source is missing. -/
noncomputable def toDegrees (radians : ℝ) : ℝ := radians * 180 / Real.pi

/-- Modelled from the spec: the two-argument arctangent `atan2(y, x)`, the angle in
`(-π, π]` of the point `(x, y)`, with `atan2(0, 0) = 0`. It is the argument of the complex
number `x + y i`. The engine source is missing. -/
noncomputable def atan2 (y x : ℝ) : ℝ := Complex.arg ⟨x, y⟩

/-- Modelled from the spec: `backspin = total_spin · cos(spin_axis)` and
`sidespin = total_spin · sin(spin_axis)`, the axis in degrees. The engine source is missing.
The result is the pair (backspin, sidespin). -/
noncomputable def decompose (total_spin spin_axis : ℝ) : ℝ × ℝ :=
  (total_spin * Real.cos (toRadians spin_axis), total_spin * Real.sin (toRadians spin_axis))

/-- Modelled from the spec: `total_spin = sqrt(backspin² + sidespin²)` and
`spin_axis = atan2(sidespin, backspin)` converted to degrees. The engine source is missing.
The result is the pair (total_spin, spin_axis); for two zero components it is (0, 0), the
convention of the design text for the degenerate case. -/
noncomputable def recompose (backspin sidespin : ℝ) : ℝ × ℝ :=
  (Real.sqrt (backspin ^ 2 + sidespin ^ 2), toDegrees (atan2 sidespin backspin))

/-- Modelled from the spec: decomposing a pair (total_spin, spin_axis) and composing the
components back. The engine source is missing. -/
noncomputable def roundTrip (total_spin spin_axis : ℝ) : ℝ × ℝ :=
  recompose (decompose total_spin spin_axis).1 (decompose total_spin spin_axis).2

end SpinDecomposer

/-! ## Theorems: the C++ wrapper -/

namespace OpenGolfCoach

/-- The wrapper as a function of the status and buffer of its one call. -/
theorem calculateDerivedValues_eq (ffi : FfiFn) (json_input : String) :
    calculateDerivedValues ffi json_input =
      if ffiStatus ffi json_input = 0 then
        Except.ok (nullTerminatedText (ffiBuffer ffi json_input))
      else if ffiStatus ffi json_input = -1 then Except.error ⟨"Null pointer error"⟩
      else if ffiStatus ffi json_input = -2 then
        Except.error ⟨"Input string is not valid UTF-8"⟩
      else if ffiStatus ffi json_input = -3 then Except.error ⟨"JSON parsing failed"⟩
      else if ffiStatus ffi json_input = -4 then Except.error ⟨"JSON serialization failed"⟩
      else if ffiStatus ffi json_input = -5 then
        Except.error ⟨"Output string conversion failed"⟩
      else if ffiStatus ffi json_input = -6 then Except.error ⟨"Output buffer too small"⟩
      else Except.error ⟨"Unknown error"⟩ := by
  simp only [calculateDerivedValues, ffiStatus, ffiBuffer, List.length_replicate]

/-- C1. For every boundary function and input, with `r` the status the boundary function
returns: `r = 0` makes the wrapper return the null-terminated text of the output buffer;
`r = -1` to `r = -6` make it throw `GolfCalculationError` with the six documented messages,
which are pairwise distinct; every other `r` makes it throw with `Unknown error`; and the
wrapper returns a string if and only if `r = 0`. -/
theorem calculateDerivedValues_status_table (ffi : FfiFn) (json_input : String) :
    (ffiStatus ffi json_input = 0 →
      calculateDerivedValues ffi json_input
        = Except.ok (nullTerminatedText (ffiBuffer ffi json_input)))
    ∧ (ffiStatus ffi json_input = -1 →
      calculateDerivedValues ffi json_input = Except.error ⟨"Null pointer error"⟩)
    ∧ (ffiStatus ffi json_input = -2 →
      calculateDerivedValues ffi json_input = Except.error ⟨"Input string is not valid UTF-8"⟩)
    ∧ (ffiStatus ffi json_input = -3 →
      calculateDerivedValues ffi json_input = Except.error ⟨"JSON parsing failed"⟩)
    ∧ (ffiStatus ffi json_input = -4 →
      calculateDerivedValues ffi json_input = Except.error ⟨"JSON serialization failed"⟩)
    ∧ (ffiStatus ffi json_input = -5 →
      calculateDerivedValues ffi json_input = Except.error ⟨"Output string conversion failed"⟩)
    ∧ (ffiStatus ffi json_input = -6 →
      calculateDerivedValues ffi json_input = Except.error ⟨"Output buffer too small"⟩)
    ∧ (ffiStatus ffi json_input ∉ ([0, -1, -2, -3, -4, -5, -6] : List Int) →
      calculateDerivedValues ffi json_input = Except.error ⟨"Unknown error"⟩)
    ∧ documentedMessages.Nodup
    ∧ ((∃ text, calculateDerivedValues ffi json_input = Except.ok text)
        ↔ ffiStatus ffi json_input = 0) := by
  rw [calculateDerivedValues_eq]
  refine ⟨?_, ?_, ?_, ?_, ?_, ?_, ?_, ?_, ?_, ?_⟩
  · intro h; simp [h]
  · intro h; simp [h]
  · intro h; simp [h]
  · intro h; simp [h]
  · intro h; simp [h]
  · intro h; simp [h]
  · intro h; simp [h]
  · intro h
    simp only [List.mem_cons, List.mem_singleton, List.not_mem_nil, or_false, not_or] at h
    obtain ⟨h0, h1, h2, h3, h4, h5, h6⟩ := h
    simp [h0, h1, h2, h3, h4, h5, h6]
  · decide
  · constructor
    · rintro ⟨text, h⟩
      by_contra h0
      rw [if_neg h0] at h
      split_ifs at h
    · intro h
      exact ⟨nullTerminatedText (ffiBuffer ffi json_input), by simp [h]⟩

/-- C1 at concrete boundary functions: status 0 with the text `shot` in the buffer returns that
text, status -6 throws `Output buffer too small`, status 7 throws `Unknown error`. -/
theorem calculateDerivedValues_status_table_witness :
    calculateDerivedValues (constantFfi 0 "shot") "input" = Except.ok "shot"
    ∧ calculateDerivedValues (constantFfi (-6) "") "input"
        = Except.error ⟨"Output buffer too small"⟩
    ∧ calculateDerivedValues (constantFfi 7 "") "input" = Except.error ⟨"Unknown error"⟩ :=
  ⟨(calculateDerivedValues_status_table (constantFfi 0 "shot") "input").1 rfl,
   (calculateDerivedValues_status_table (constantFfi (-6) "") "input").2.2.2.2.2.2.1 rfl,
   (calculateDerivedValues_status_table (constantFfi 7 "") "input").2.2.2.2.2.2.2.1 (by decide)⟩

end OpenGolfCoach

/-! ## Theorems: loading and unloading -/

namespace UOpenGolfCoachLibrary

/-- With a handle already present `LoadLibrary` does nothing and returns true. -/
theorem LoadLibrary_of_loaded (env : Env) (s : LibState) (h : s.LibraryHandle ≠ 0) :
    LoadLibrary env s = ⟨true, s, []⟩ := by
  simp [LoadLibrary, h]

/-- The return value of `LoadLibrary` tells whether a handle is present afterwards. -/
theorem LoadLibrary_ret_iff (env : Env) (s : LibState) :
    (LoadLibrary env s).ret = true ↔ (LoadLibrary env s).state.LibraryHandle ≠ 0 := by
  unfold LoadLibrary
  by_cases h : s.LibraryHandle = 0
  · simp only [h, ne_eq, not_true_eq_false, if_false]
    cases LibraryName env.Platform with
    | none => simp [h]
    | some Name =>
      simp only
      split_ifs with h1 h2
      · simp [h1]
      · simp
      · simp [h1]
  · simp [h]

/-- The function `LoadLibrary` keeps the invariant of the two static members. -/
theorem LoadLibrary_consistent (env : Env) (s : LibState) (hs : Consistent s) :
    Consistent (LoadLibrary env s).state := by
  unfold Consistent at hs ⊢
  unfold LoadLibrary
  by_cases h : s.LibraryHandle = 0
  · have hf : s.CalculateFunction = 0 := by
      by_contra hc
      exact (hs.mpr hc) h
    simp only [h, ne_eq, not_true_eq_false, if_false]
    cases LibraryName env.Platform with
    | none => simp [h, hf]
    | some Name =>
      simp only
      split_ifs with h1 h2
      · simp [h1, hf]
      · simp [h2]
      · simp [h1, h2]
  · simpa [h] using hs

/-- The function `UnloadLibrary` keeps the invariant of the two static members. -/
theorem UnloadLibrary_consistent (s : LibState) (hs : Consistent s) :
    Consistent (UnloadLibrary s).1 := by
  unfold UnloadLibrary
  split_ifs with h
  · simp [Consistent]
  · exact hs

/-- After a `LoadLibrary` that returned true from a consistent state the function pointer is
not null. -/
theorem LoadLibrary_function_ne_zero (env : Env) (s : LibState) (hs : Consistent s)
    (h : (LoadLibrary env s).ret = true) : (LoadLibrary env s).state.CalculateFunction ≠ 0 :=
  (LoadLibrary_consistent env s hs).mp ((LoadLibrary_ret_iff env s).mp h)

/-- The function `CalculateDerivedValues` as a function of the outcome of `LoadLibrary`, of
the call through the pointer and of the reader, in a consistent state. -/
theorem CalculateDerivedValues_eq (env : Env) (s : LibState) (ShotData OutShotData : FGolfShotData)
    (hs : Consistent s) :
    CalculateDerivedValues env s ShotData OutShotData =
      if (LoadLibrary env s).ret = false then
        some ⟨false, OutShotData, (LoadLibrary env s).state, (LoadLibrary env s).calls⟩
      else if (boundaryCall env s ShotData).1 ≠ 0 then
        some ⟨false, OutShotData, (LoadLibrary env s).state,
          (LoadLibrary env s).calls ++
            [PlatformCall.Invoke (LoadLibrary env s).state.CalculateFunction
              (env.Serialize (buildRequest ShotData)) 8192]⟩
      else
        match env.Deserialize (nullTerminatedText (boundaryCall env s ShotData).2) with
        | (true, some OutputObject) =>
          some ⟨true, readResponse env OutputObject OutShotData, (LoadLibrary env s).state,
            (LoadLibrary env s).calls ++
              [PlatformCall.Invoke (LoadLibrary env s).state.CalculateFunction
                (env.Serialize (buildRequest ShotData)) 8192]⟩
        | _ =>
          some ⟨false, OutShotData, (LoadLibrary env s).state,
            (LoadLibrary env s).calls ++
              [PlatformCall.Invoke (LoadLibrary env s).state.CalculateFunction
                (env.Serialize (buildRequest ShotData)) 8192]⟩ := by
  unfold CalculateDerivedValues boundaryCall
  by_cases hl : (LoadLibrary env s).ret = false
  · simp [hl]
  · have ht : (LoadLibrary env s).ret = true := by simpa using hl
    have hf := LoadLibrary_function_ne_zero env s hs ht
    simp [hl, hf]

/-- In a consistent state `CalculateDerivedValues` is defined and leaves a consistent
state. -/
theorem CalculateDerivedValues_defined (env : Env) (s : LibState)
    (ShotData OutShotData : FGolfShotData) (hs : Consistent s) :
    ∃ r, CalculateDerivedValues env s ShotData OutShotData = some r
      ∧ r.state = (LoadLibrary env s).state := by
  rw [CalculateDerivedValues_eq env s ShotData OutShotData hs]
  split_ifs
  · exact ⟨_, rfl, rfl⟩
  · exact ⟨_, rfl, rfl⟩
  · split
    · exact ⟨_, rfl, rfl⟩
    · exact ⟨_, rfl, rfl⟩

/-- Every call keeps the invariant and is defined in a consistent state. -/
theorem step_consistent (s : LibState) (c : LibCall) (hs : Consistent s) :
    ∃ t, step s c = some t ∧ Consistent t := by
  cases c with
  | Load env => exact ⟨_, rfl, LoadLibrary_consistent env s hs⟩
  | Unload => exact ⟨_, rfl, UnloadLibrary_consistent s hs⟩
  | Calculate env ShotData OutShotData =>
    obtain ⟨r, hr, hst⟩ := CalculateDerivedValues_defined env s ShotData OutShotData hs
    refine ⟨r.state, ?_, ?_⟩
    · simp [step, hr]
    · rw [hst]; exact LoadLibrary_consistent env s hs

/-- Every sequence of calls keeps the invariant and is defined in a consistent state. -/
theorem run_consistent_of (calls : List LibCall) :
    ∀ s, Consistent s → ∃ t, run s calls = some t ∧ Consistent t := by
  induction calls with
  | nil => intro s hs; exact ⟨s, rfl, hs⟩
  | cons c cs ih =>
    intro s hs
    obtain ⟨t, ht, hct⟩ := step_consistent s c hs
    obtain ⟨u, hu, hcu⟩ := ih t hct
    exact ⟨u, by simp [run, ht, hu], hcu⟩

/-- Repeated loads from a state with a handle change nothing and call nothing. -/
theorem loadRepeatedly_of_loaded (envs : List Env) :
    ∀ s, s.LibraryHandle ≠ 0 → loadRepeatedly s envs = s ∧ loadRepeatedlyCalls s envs = [] := by
  induction envs with
  | nil => intro s _; exact ⟨rfl, rfl⟩
  | cons env envs ih =>
    intro s h
    simp only [loadRepeatedly, loadRepeatedlyCalls, LoadLibrary_of_loaded env s h]
    exact ⟨(ih s h).1, by simp [(ih s h).2]⟩

end UOpenGolfCoachLibrary

/-! ## Theorems: the claims on loading -/

namespace UOpenGolfCoachLibrary

/-- C7. Loading is idempotent. In every state whose `LibraryHandle` is not null,
`LoadLibrary` returns true, leaves both static members unchanged and makes no platform call
(no `GetDllHandle`, `GetDllExport` or `FreeDllHandle`); any number of further `LoadLibrary`
calls, whatever the platform would answer, leave the state unchanged and make no platform
call; and the state left by any `LoadLibrary` that returned true is such a state. -/
theorem LoadLibrary_idempotent (env : Env) (s : LibState) (h : s.LibraryHandle ≠ 0) :
    (LoadLibrary env s).ret = true
    ∧ (LoadLibrary env s).state = s
    ∧ (LoadLibrary env s).calls = []
    ∧ (∀ envs : List Env, loadRepeatedly s envs = s ∧ loadRepeatedlyCalls s envs = [])
    ∧ (∀ (env0 : Env) (s0 : LibState), (LoadLibrary env0 s0).ret = true →
        ∀ envs : List Env,
          loadRepeatedly (LoadLibrary env0 s0).state envs = (LoadLibrary env0 s0).state
          ∧ loadRepeatedlyCalls (LoadLibrary env0 s0).state envs = []) := by
  rw [LoadLibrary_of_loaded env s h]
  refine ⟨rfl, rfl, rfl, fun envs => loadRepeatedly_of_loaded envs s h, ?_⟩
  intro env0 s0 h0 envs
  exact loadRepeatedly_of_loaded envs _ ((LoadLibrary_ret_iff env0 s0).mp h0)

/-- C7 at a concrete state: with handle 1 and function pointer 2, a `LoadLibrary` in an
environment where the library would not even open returns true, keeps the state and calls
nothing; and after a first successful load from the initial state, three more loads in
environments that would fail change nothing. -/
theorem LoadLibrary_idempotent_witness :
    (LoadLibrary exampleEnvNoLibrary ⟨1, 2⟩).ret = true
    ∧ (LoadLibrary exampleEnvNoLibrary ⟨1, 2⟩).state = ⟨1, 2⟩
    ∧ (LoadLibrary exampleEnvNoLibrary ⟨1, 2⟩).calls = []
    ∧ (LoadLibrary exampleEnv LibState.initial).ret = true
    ∧ loadRepeatedly (LoadLibrary exampleEnv LibState.initial).state
        [exampleEnvNoLibrary, exampleEnvNoSymbol, exampleEnv] = ⟨1, 2⟩
    ∧ loadRepeatedlyCalls (LoadLibrary exampleEnv LibState.initial).state
        [exampleEnvNoLibrary, exampleEnvNoSymbol, exampleEnv] = [] :=
  ⟨(LoadLibrary_idempotent exampleEnvNoLibrary ⟨1, 2⟩ (by decide)).1,
   (LoadLibrary_idempotent exampleEnvNoLibrary ⟨1, 2⟩ (by decide)).2.1,
   (LoadLibrary_idempotent exampleEnvNoLibrary ⟨1, 2⟩ (by decide)).2.2.1,
   by decide,
   ((LoadLibrary_idempotent exampleEnvNoLibrary ⟨1, 2⟩ (by decide)).2.2.2.2
      exampleEnv LibState.initial (by decide) _).1,
   ((LoadLibrary_idempotent exampleEnvNoLibrary ⟨1, 2⟩ (by decide)).2.2.2.2
      exampleEnv LibState.initial (by decide) _).2⟩

/-- C9. From the initial state (both static members null), every finite sequence of
`LoadLibrary`, `UnloadLibrary` and `CalculateDerivedValues` calls, each with an arbitrary
behaviour of the platform, is defined and ends in a state where `LibraryHandle` is not null
if and only if `CalculateFunction` is not null. Consequently, in such a state, whenever
`LoadLibrary` returns true the function pointer that `CalculateDerivedValues` goes on to call
is not null, and `CalculateDerivedValues` is defined. -/
theorem handle_iff_function_after_calls (calls : List LibCall) :
    ∃ s, run LibState.initial calls = some s
      ∧ (s.LibraryHandle ≠ 0 ↔ s.CalculateFunction ≠ 0)
      ∧ ∀ (env : Env) (ShotData OutShotData : FGolfShotData),
          ((LoadLibrary env s).ret = true → (LoadLibrary env s).state.CalculateFunction ≠ 0)
          ∧ ∃ r, CalculateDerivedValues env s ShotData OutShotData = some r := by
  have h0 : Consistent LibState.initial := by decide
  obtain ⟨s, hrun, hs⟩ := run_consistent_of calls LibState.initial h0
  refine ⟨s, hrun, hs, ?_⟩
  intro env ShotData OutShotData
  refine ⟨LoadLibrary_function_ne_zero env s hs, ?_⟩
  obtain ⟨r, hr, _⟩ := CalculateDerivedValues_defined env s ShotData OutShotData hs
  exact ⟨r, hr⟩

/-- C10. For every state and platform behaviour: `LoadLibrary` returns true if and only if
`LibraryHandle` is not null when it returns; when it returns false from the unloaded state,
the state is again the unloaded state; and when the handle is null, the platform is
supported, the library opens but the symbol `calculate_derived_values_ffi` is not found, it
returns false after exactly three platform calls, the last of which is the one
`FreeDllHandle` call, on the handle just obtained. -/
theorem LoadLibrary_outcome (env : Env) (s : LibState) :
    ((LoadLibrary env s).ret = true ↔ (LoadLibrary env s).state.LibraryHandle ≠ 0)
    ∧ (s = LibState.initial → (LoadLibrary env s).ret = false →
        (LoadLibrary env s).state = LibState.initial)
    ∧ (∀ Name : String, s.LibraryHandle = 0 → LibraryName env.Platform = some Name →
        env.GetDllHandle (LibraryPath env Name) ≠ 0 →
        env.GetDllExport (env.GetDllHandle (LibraryPath env Name))
          "calculate_derived_values_ffi" = 0 →
        (LoadLibrary env s).ret = false
        ∧ (LoadLibrary env s).state.LibraryHandle = 0
        ∧ (LoadLibrary env s).calls =
            [PlatformCall.GetDllHandle (LibraryPath env Name),
             PlatformCall.GetDllExport (env.GetDllHandle (LibraryPath env Name))
               "calculate_derived_values_ffi",
             PlatformCall.FreeDllHandle (env.GetDllHandle (LibraryPath env Name))]) := by
  refine ⟨LoadLibrary_ret_iff env s, ?_, ?_⟩
  · intro hs hret
    subst hs
    have hc : Consistent (LoadLibrary env LibState.initial).state :=
      LoadLibrary_consistent env _ (by decide)
    have hh : (LoadLibrary env LibState.initial).state.LibraryHandle = 0 := by
      by_contra hne
      have := (LoadLibrary_ret_iff env LibState.initial).mpr hne
      rw [hret] at this
      exact Bool.noConfusion this
    have hf : (LoadLibrary env LibState.initial).state.CalculateFunction = 0 := by
      by_contra hne
      exact (hc.mpr hne) hh
    cases hst : (LoadLibrary env LibState.initial).state with
    | mk a b =>
      rw [hst] at hh hf
      simp only at hh hf
      subst hh
      subst hf
      rfl
  · intro Name h0 hname hh hx
    simp [LoadLibrary, h0, hname, hh, hx]

/-- C10 at a concrete environment: from the initial state, on Linux, with the library opening
at handle 1 and the symbol missing, `LoadLibrary` returns false, the state is the initial
state, and the calls are `GetDllHandle`, `GetDllExport`, `FreeDllHandle 1`. -/
theorem LoadLibrary_outcome_witness :
    (LoadLibrary exampleEnvNoSymbol LibState.initial).ret = false
    ∧ (LoadLibrary exampleEnvNoSymbol LibState.initial).state = LibState.initial
    ∧ (LoadLibrary exampleEnvNoSymbol LibState.initial).calls =
        [PlatformCall.GetDllHandle "Plugins/OpenGolfCoach/Binaries/Linux/libopengolfcoach.so",
         PlatformCall.GetDllExport 1 "calculate_derived_values_ffi",
         PlatformCall.FreeDllHandle 1] :=
  have w := (LoadLibrary_outcome exampleEnvNoSymbol LibState.initial).2.2
    "libopengolfcoach.so" rfl rfl (by decide) rfl
  ⟨w.1,
   (LoadLibrary_outcome exampleEnvNoSymbol LibState.initial).2.1 rfl w.1,
   w.2.2⟩

end UOpenGolfCoachLibrary

/-! ## Theorems: the return value and the failure paths of `CalculateDerivedValues` -/

namespace UOpenGolfCoachLibrary

/-- C2. In every state reachable by the library (the two static members null together or
not null together), for every platform behaviour, shot and prior `OutShotData`,
`CalculateDerivedValues` is defined and returns true exactly when all three hold:
`LoadLibrary` returns true, the boundary function returns status 0, and the reader returns
true with a valid object for the text of the output buffer. In every other case it returns
false. -/
theorem CalculateDerivedValues_ret_true_iff (env : Env) (s : LibState)
    (ShotData OutShotData : FGolfShotData) (hs : Consistent s) :
    ∃ r, CalculateDerivedValues env s ShotData OutShotData = some r
      ∧ (r.ret = true ↔
          ((LoadLibrary env s).ret = true
            ∧ (boundaryCall env s ShotData).1 = 0
            ∧ ∃ OutputObject,
                env.Deserialize (nullTerminatedText (boundaryCall env s ShotData).2)
                  = (true, some OutputObject)))
      ∧ (r.ret = false ↔
          ((LoadLibrary env s).ret = false
            ∨ (boundaryCall env s ShotData).1 ≠ 0
            ∨ ¬ ∃ OutputObject,
                env.Deserialize (nullTerminatedText (boundaryCall env s ShotData).2)
                  = (true, some OutputObject))) := by
  rw [CalculateDerivedValues_eq env s ShotData OutShotData hs]
  by_cases hl : (LoadLibrary env s).ret = false
  · refine ⟨_, if_pos hl, ?_, ?_⟩
    · simp [hl]
    · simp [hl]
  · have ht : (LoadLibrary env s).ret = true := by simpa using hl
    rw [if_neg hl]
    by_cases hr : (boundaryCall env s ShotData).1 ≠ 0
    · refine ⟨_, if_pos hr, ?_, ?_⟩
      · simp [hr]
      · simp [hr]
    · rw [if_neg hr]
      have hr0 : (boundaryCall env s ShotData).1 = 0 := by simpa using hr
      rcases hd : env.Deserialize (nullTerminatedText (boundaryCall env s ShotData).2)
        with ⟨b, o⟩
      cases b with
      | false => exact ⟨_, rfl, by simp [ht, hr0], by simp⟩
      | true =>
        cases o with
        | none => exact ⟨_, rfl, by simp [ht, hr0], by simp⟩
        | some OutputObject => exact ⟨_, rfl, by simp [ht, hr0], by simp [ht, hr0]⟩

/-- C2 at concrete inputs: from the initial state, in the example environment (library
opens, symbol found, status 0, response parsed) the call on the second example shot returns
true. -/
theorem CalculateDerivedValues_ret_true_iff_witness :
    ∃ r, CalculateDerivedValues exampleEnv LibState.initial ExampleShot2 {} = some r
      ∧ r.ret = true := by
  obtain ⟨r, hr, htrue, _⟩ :=
    CalculateDerivedValues_ret_true_iff exampleEnv LibState.initial ExampleShot2 {}
      (by decide)
  exact ⟨r, hr, htrue.mpr ⟨by decide, by decide, exampleResponse2, rfl⟩⟩

/-- C3. There is no partial result. In every state reachable by the library, for every
platform behaviour, input shot and prior value of `OutShotData`, `CalculateDerivedValues`
is defined, and whenever it returns false the value of `OutShotData` after the call is the
value before the call, field for field. -/
theorem CalculateDerivedValues_false_keeps_OutShotData (env : Env) (s : LibState)
    (ShotData OutShotData : FGolfShotData) (hs : Consistent s) :
    ∃ r, CalculateDerivedValues env s ShotData OutShotData = some r
      ∧ (r.ret = false → r.OutShotData = OutShotData) := by
  rw [CalculateDerivedValues_eq env s ShotData OutShotData hs]
  split_ifs with hl hr
  · exact ⟨_, rfl, fun _ => rfl⟩
  · exact ⟨_, rfl, fun _ => rfl⟩
  · split
    · exact ⟨_, rfl, fun h => Bool.noConfusion h⟩
    · exact ⟨_, rfl, fun _ => rfl⟩

/-- C3 at concrete inputs: when the symbol is missing, the call on the second example shot
with `OutShotData` holding the example shot itself returns false and leaves it as it was. -/
theorem CalculateDerivedValues_false_keeps_OutShotData_witness :
    ∃ r, CalculateDerivedValues exampleEnvNoSymbol LibState.initial ExampleShot2 ExampleShot2
        = some r
      ∧ r.ret = false ∧ r.OutShotData = ExampleShot2 := by
  obtain ⟨r, hr, hkeep⟩ :=
    CalculateDerivedValues_false_keeps_OutShotData exampleEnvNoSymbol LibState.initial
      ExampleShot2 ExampleShot2 (by decide)
  have hret : r.ret = false := by
    have h2 : CalculateDerivedValues exampleEnvNoSymbol LibState.initial ExampleShot2
        ExampleShot2 = some ⟨false, ExampleShot2, LibState.initial,
          [PlatformCall.GetDllHandle "Plugins/OpenGolfCoach/Binaries/Linux/libopengolfcoach.so",
           PlatformCall.GetDllExport 1 "calculate_derived_values_ffi",
           PlatformCall.FreeDllHandle 1]⟩ := by decide
    rw [h2] at hr
    cases hr
    rfl
  exact ⟨r, hr, hret, hkeep hret⟩

end UOpenGolfCoachLibrary

/-! ## Theorems: the request built from `ShotData` -/

namespace FJsonObject

/-- Looking a name up after `SetNumberField`: the new number under the name just set, the
old value under every other name. -/
theorem lookup_SetNumberField (o : FJsonObject) (k k' : String) (v : FloatVal) :
    List.lookup k (SetNumberField o k' v)
      = if k = k' then some (FJsonValue.Number v) else List.lookup k o := by
  unfold SetNumberField
  induction o with
  | nil =>
    by_cases h : k = k'
    · simp [List.lookup, h]
    · have hb : (k == k') = false := by simpa using h
      simp [List.lookup, h, hb]
  | cons p o ih =>
    obtain ⟨a, b⟩ := p
    by_cases ha : a = k'
    · subst ha
      by_cases h : k = a
      · subst h
        simpa [List.filter] using ih
      · have hb : (k == a) = false := by simpa using h
        simpa [List.filter, List.lookup, hb, h] using ih
    · have hne : (a != k') = true := by simpa using ha
      by_cases h : k = a
      · subst h
        simp [List.filter, hne, List.lookup, ha]
      · have hb : (k == a) = false := by simpa using h
        simpa [List.filter, hne, List.lookup, hb] using ih

/-- Looking a name up after a guarded `SetNumberField`. -/
theorem lookup_guarded (o : FJsonObject) (c : Bool) (k k' : String) (v : FloatVal) :
    List.lookup k (if c = true then SetNumberField o k' v else o)
      = if c = true ∧ k = k' then some (FJsonValue.Number v) else List.lookup k o := by
  cases c with
  | false => simp
  | true => simp [lookup_SetNumberField]

end FJsonObject

namespace UOpenGolfCoachLibrary

/-- The value found in the request under each of the seven field names. -/
theorem buildRequest_lookup (ShotData : FGolfShotData) :
    List.lookup "ball_speed_meters_per_second" (buildRequest ShotData)
        = (if ShotData.BallSpeedMetersPerSecond.gtZero = true
            then some (FJsonValue.Number ShotData.BallSpeedMetersPerSecond) else none)
    ∧ List.lookup "vertical_launch_angle_degrees" (buildRequest ShotData)
        = (if ShotData.VerticalLaunchAngleDegrees.neZero = true
            then some (FJsonValue.Number ShotData.VerticalLaunchAngleDegrees) else none)
    ∧ List.lookup "horizontal_launch_angle_degrees" (buildRequest ShotData)
        = (if ShotData.HorizontalLaunchAngleDegrees.neZero = true
            then some (FJsonValue.Number ShotData.HorizontalLaunchAngleDegrees) else none)
    ∧ List.lookup "total_spin_rpm" (buildRequest ShotData)
        = (if ShotData.TotalSpinRPM.gtZero = true
            then some (FJsonValue.Number ShotData.TotalSpinRPM) else none)
    ∧ List.lookup "spin_axis_degrees" (buildRequest ShotData)
        = (if ShotData.SpinAxisDegrees.neZero = true
            then some (FJsonValue.Number ShotData.SpinAxisDegrees) else none)
    ∧ List.lookup "backspin_rpm" (buildRequest ShotData)
        = (if ShotData.BackspinRPM.gtZero = true
            then some (FJsonValue.Number ShotData.BackspinRPM) else none)
    ∧ List.lookup "sidespin_rpm" (buildRequest ShotData)
        = (if ShotData.SidespinRPM.neZero = true
            then some (FJsonValue.Number ShotData.SidespinRPM) else none) := by
  simp only [buildRequest, FJsonObject.lookup_guarded]
  refine ⟨?_, ?_, ?_, ?_, ?_, ?_, ?_⟩ <;> simp [List.lookup]

/-- The only call through the function pointer that `CalculateDerivedValues` makes carries the
serialized request and the buffer size 8192. -/
theorem CalculateDerivedValues_invoke_input (env : Env) (s : LibState)
    (ShotData OutShotData : FGolfShotData) (r : CalcResult)
    (hr : CalculateDerivedValues env s ShotData OutShotData = some r)
    (Function : Nat) (json_input : String) (buffer_size : Nat)
    (hmem : PlatformCall.Invoke Function json_input buffer_size ∈ r.calls) :
    json_input = env.Serialize (buildRequest ShotData) ∧ buffer_size = 8192 := by
  have hload : PlatformCall.Invoke Function json_input buffer_size ∉ (LoadLibrary env s).calls := by
    unfold LoadLibrary
    split_ifs
    · simp
    · cases LibraryName env.Platform with
      | none => simp
      | some Name =>
        simp only
        split_ifs <;> simp
  unfold CalculateDerivedValues at hr
  simp only at hr
  split_ifs at hr with h1 h2 h3
  · cases hr; exact absurd hmem hload
  · cases hr
    simp only [List.mem_append, List.mem_singleton, PlatformCall.Invoke.injEq] at hmem
    rcases hmem with hmem | hmem
    · exact absurd hmem hload
    · exact ⟨hmem.2.1, hmem.2.2⟩
  · split at hr
    · cases hr
      simp only [List.mem_append, List.mem_singleton, PlatformCall.Invoke.injEq] at hmem
      rcases hmem with hmem | hmem
      · exact absurd hmem hload
      · exact ⟨hmem.2.1, hmem.2.2⟩
    · cases hr
      simp only [List.mem_append, List.mem_singleton, PlatformCall.Invoke.injEq] at hmem
      rcases hmem with hmem | hmem
      · exact absurd hmem hload
      · exact ⟨hmem.2.1, hmem.2.2⟩

end UOpenGolfCoachLibrary

/-! ## Theorems: the claims on the request -/

namespace UOpenGolfCoachLibrary

/-- C4, as stated, fails. A ball speed of 0 is non-negative and a vertical launch angle of
12.5 is finite, yet the request has no `ball_speed_meters_per_second`; a ball speed of 70 is
non-negative and a vertical launch angle of 0 is finite, yet the request has no
`vertical_launch_angle_degrees`. -/
theorem required_fields_counterexample :
    (FloatVal.zero.isNonNegative = true
      ∧ (FloatVal.finite 25 (-1)).isFinite = true
      ∧ (buildRequest { BallSpeedMetersPerSecond := FloatVal.zero
                        VerticalLaunchAngleDegrees := FloatVal.finite 25 (-1) }).HasField
          "ball_speed_meters_per_second" = false)
    ∧ ((FloatVal.ofInt 70).isNonNegative = true
      ∧ FloatVal.zero.isFinite = true
      ∧ (buildRequest { BallSpeedMetersPerSecond := FloatVal.ofInt 70
                        VerticalLaunchAngleDegrees := FloatVal.zero }).HasField
          "vertical_launch_angle_degrees" = false) := by
  decide

/-- C4, amended. For every `FGolfShotData`: the request has the key
`ball_speed_meters_per_second` exactly when the ball speed is greater than zero, and then the
key carries the ball speed; it has the key `vertical_launch_angle_degrees` exactly when the
vertical launch angle does not compare equal to zero, and then the key carries the angle; so a
ball speed of exactly zero, or a vertical launch angle of exactly zero, leaves the respective
key out, and the request contains both required fields if and only if the ball speed is
greater than zero and the vertical launch angle is not zero; and that request is the text
passed in the one call through the function pointer. -/
theorem required_fields_iff (ShotData : FGolfShotData) :
    (((buildRequest ShotData).HasField "ball_speed_meters_per_second" = true
        ∧ (buildRequest ShotData).HasField "vertical_launch_angle_degrees" = true)
      ↔ (ShotData.BallSpeedMetersPerSecond.gtZero = true
          ∧ ShotData.VerticalLaunchAngleDegrees.neZero = true))
    ∧ ((buildRequest ShotData).HasField "ball_speed_meters_per_second" = true
        ↔ ShotData.BallSpeedMetersPerSecond.gtZero = true)
    ∧ ((buildRequest ShotData).HasField "vertical_launch_angle_degrees" = true
        ↔ ShotData.VerticalLaunchAngleDegrees.neZero = true)
    ∧ (buildRequest ShotData).numberAt "ball_speed_meters_per_second"
        = (if ShotData.BallSpeedMetersPerSecond.gtZero = true
            then some ShotData.BallSpeedMetersPerSecond else none)
    ∧ (buildRequest ShotData).numberAt "vertical_launch_angle_degrees"
        = (if ShotData.VerticalLaunchAngleDegrees.neZero = true
            then some ShotData.VerticalLaunchAngleDegrees else none)
    ∧ (ShotData.BallSpeedMetersPerSecond.isZero = true →
        (buildRequest ShotData).HasField "ball_speed_meters_per_second" = false)
    ∧ (ShotData.VerticalLaunchAngleDegrees.isZero = true →
        (buildRequest ShotData).HasField "vertical_launch_angle_degrees" = false)
    ∧ (ShotData.BallSpeedMetersPerSecond.isNonNegative = true →
        ShotData.BallSpeedMetersPerSecond.isZero = false →
        ShotData.VerticalLaunchAngleDegrees.isZero = false →
        (buildRequest ShotData).HasField "ball_speed_meters_per_second" = true
          ∧ (buildRequest ShotData).HasField "vertical_launch_angle_degrees" = true)
    ∧ (∀ (env : Env) (s : LibState) (OutShotData : FGolfShotData) (r : CalcResult)
        (Function : Nat) (json_input : String) (buffer_size : Nat),
        CalculateDerivedValues env s ShotData OutShotData = some r →
        PlatformCall.Invoke Function json_input buffer_size ∈ r.calls →
        json_input = env.Serialize (buildRequest ShotData)) := by
  obtain ⟨h1, h2, -⟩ := buildRequest_lookup ShotData
  have hs : (buildRequest ShotData).HasField "ball_speed_meters_per_second"
      = ShotData.BallSpeedMetersPerSecond.gtZero := by
    unfold FJsonObject.HasField
    rw [h1]
    cases ShotData.BallSpeedMetersPerSecond.gtZero <;> simp
  have hv : (buildRequest ShotData).HasField "vertical_launch_angle_degrees"
      = ShotData.VerticalLaunchAngleDegrees.neZero := by
    unfold FJsonObject.HasField
    rw [h2]
    cases ShotData.VerticalLaunchAngleDegrees.neZero <;> simp
  have hgt : ∀ v : FloatVal, v.isZero = true → v.gtZero = false := by
    intro v hz
    cases v with
    | finite m e =>
      have hm : m = 0 := by simpa [FloatVal.isZero] using hz
      simp [FloatVal.gtZero, hm]
    | posInf => simp [FloatVal.isZero] at hz
    | negInf => rfl
    | nan => rfl
  have hne : ∀ v : FloatVal, v.neZero = !v.isZero := by
    intro v
    cases v <;> simp [FloatVal.neZero, FloatVal.isZero]
  have hpos : ∀ v : FloatVal, v.isNonNegative = true → v.isZero = false → v.gtZero = true := by
    intro v hn hz
    cases v with
    | finite m e =>
      have h0 : 0 ≤ m := by simpa [FloatVal.isNonNegative] using hn
      have hm : m ≠ 0 := by simpa [FloatVal.isZero] using hz
      have : 0 < m := lt_of_le_of_ne h0 (Ne.symm hm)
      simpa [FloatVal.gtZero] using this
    | posInf => rfl
    | negInf => simp [FloatVal.isNonNegative] at hn
    | nan => simp [FloatVal.isNonNegative] at hn
  refine ⟨?_, ?_, ?_, ?_, ?_, ?_, ?_, ?_, ?_⟩
  · rw [hs, hv]
  · rw [hs]
  · rw [hv]
  · unfold FJsonObject.numberAt
    rw [h1]
    split_ifs <;> rfl
  · unfold FJsonObject.numberAt
    rw [h2]
    split_ifs <;> rfl
  · intro hz
    rw [hs]
    exact hgt _ hz
  · intro hz
    rw [hv, hne, hz]
    rfl
  · intro hn hz hz2
    rw [hs, hv, hne, hz2]
    exact ⟨hpos _ hn hz, rfl⟩
  · intro env s OutShotData r Function json_input buffer_size hr hmem
    exact (CalculateDerivedValues_invoke_input env s ShotData OutShotData r hr
      Function json_input buffer_size hmem).1

/-- C4 at concrete inputs: the second example shot (ball speed 65, vertical launch angle 14)
has both required keys in its request, with those values; the default shot (both zero) has
neither. -/
theorem required_fields_iff_witness :
    ((buildRequest ExampleShot2).HasField "ball_speed_meters_per_second" = true
      ∧ (buildRequest ExampleShot2).HasField "vertical_launch_angle_degrees" = true)
    ∧ (buildRequest ExampleShot2).numberAt "ball_speed_meters_per_second"
        = some (FloatVal.ofInt 65)
    ∧ (buildRequest ExampleShot2).numberAt "vertical_launch_angle_degrees"
        = some (FloatVal.ofInt 14)
    ∧ (buildRequest {}).HasField "ball_speed_meters_per_second" = false
    ∧ (buildRequest {}).HasField "vertical_launch_angle_degrees" = false :=
  ⟨(required_fields_iff ExampleShot2).2.2.2.2.2.2.2.1 (by decide) (by decide) (by decide),
   (required_fields_iff ExampleShot2).2.2.2.1,
   (required_fields_iff ExampleShot2).2.2.2.2.1,
   (required_fields_iff {}).2.2.2.2.2.1 (by decide),
   (required_fields_iff {}).2.2.2.2.2.2.1 (by decide)⟩

/-- C6, as stated, fails. A ball speed, a total spin and a backspin of -1 are not zero, yet
the request has none of the three keys. -/
theorem zero_sentinel_counterexample :
    (FloatVal.ofInt (-1)).isZero = false
    ∧ (buildRequest { BallSpeedMetersPerSecond := FloatVal.ofInt (-1)
                      TotalSpinRPM := FloatVal.ofInt (-1)
                      BackspinRPM := FloatVal.ofInt (-1) }).HasField
        "ball_speed_meters_per_second" = false
    ∧ (buildRequest { BallSpeedMetersPerSecond := FloatVal.ofInt (-1)
                      TotalSpinRPM := FloatVal.ofInt (-1)
                      BackspinRPM := FloatVal.ofInt (-1) }).HasField
        "total_spin_rpm" = false
    ∧ (buildRequest { BallSpeedMetersPerSecond := FloatVal.ofInt (-1)
                      TotalSpinRPM := FloatVal.ofInt (-1)
                      BackspinRPM := FloatVal.ofInt (-1) }).HasField
        "backspin_rpm" = false := by
  decide

/-- C6, amended. For every `FGolfShotData`: the keys of the vertical launch angle, the
horizontal launch angle, the spin axis and the sidespin are in the request exactly when the
field does not compare equal to zero; the keys of the ball speed, the total spin and the
backspin are in the request exactly when the field is greater than zero (so zero, negative
values and NaN are left out); a key that is in the request carries the value of its field;
and that request is the text passed in the one call through the function pointer. -/
theorem request_fields (ShotData : FGolfShotData) :
    ((buildRequest ShotData).HasField "ball_speed_meters_per_second"
        = ShotData.BallSpeedMetersPerSecond.gtZero
      ∧ (buildRequest ShotData).HasField "vertical_launch_angle_degrees"
        = ShotData.VerticalLaunchAngleDegrees.neZero
      ∧ (buildRequest ShotData).HasField "horizontal_launch_angle_degrees"
        = ShotData.HorizontalLaunchAngleDegrees.neZero
      ∧ (buildRequest ShotData).HasField "total_spin_rpm" = ShotData.TotalSpinRPM.gtZero
      ∧ (buildRequest ShotData).HasField "spin_axis_degrees" = ShotData.SpinAxisDegrees.neZero
      ∧ (buildRequest ShotData).HasField "backspin_rpm" = ShotData.BackspinRPM.gtZero
      ∧ (buildRequest ShotData).HasField "sidespin_rpm" = ShotData.SidespinRPM.neZero)
    ∧ ((buildRequest ShotData).numberAt "ball_speed_meters_per_second"
        = (if ShotData.BallSpeedMetersPerSecond.gtZero = true
            then some ShotData.BallSpeedMetersPerSecond else none)
      ∧ (buildRequest ShotData).numberAt "vertical_launch_angle_degrees"
        = (if ShotData.VerticalLaunchAngleDegrees.neZero = true
            then some ShotData.VerticalLaunchAngleDegrees else none)
      ∧ (buildRequest ShotData).numberAt "horizontal_launch_angle_degrees"
        = (if ShotData.HorizontalLaunchAngleDegrees.neZero = true
            then some ShotData.HorizontalLaunchAngleDegrees else none)
      ∧ (buildRequest ShotData).numberAt "total_spin_rpm"
        = (if ShotData.TotalSpinRPM.gtZero = true then some ShotData.TotalSpinRPM else none)
      ∧ (buildRequest ShotData).numberAt "spin_axis_degrees"
        = (if ShotData.SpinAxisDegrees.neZero = true
            then some ShotData.SpinAxisDegrees else none)
      ∧ (buildRequest ShotData).numberAt "backspin_rpm"
        = (if ShotData.BackspinRPM.gtZero = true then some ShotData.BackspinRPM else none)
      ∧ (buildRequest ShotData).numberAt "sidespin_rpm"
        = (if ShotData.SidespinRPM.neZero = true then some ShotData.SidespinRPM else none))
    ∧ (∀ v : FloatVal, (v.neZero = false ↔ v.isZero = true)
        ∧ (v.gtZero = false ↔
            (v.isZero = true ∨ v = FloatVal.nan ∨ v = FloatVal.negInf
              ∨ ∃ m e, v = FloatVal.finite m e ∧ m < 0)))
    ∧ (∀ (env : Env) (s : LibState) (OutShotData : FGolfShotData) (r : CalcResult)
        (Function : Nat) (json_input : String) (buffer_size : Nat),
        CalculateDerivedValues env s ShotData OutShotData = some r →
        PlatformCall.Invoke Function json_input buffer_size ∈ r.calls →
        json_input = env.Serialize (buildRequest ShotData)) := by
  obtain ⟨h1, h2, h3, h4, h5, h6, h7⟩ := buildRequest_lookup ShotData
  refine ⟨?_, ?_, ?_, ?_⟩
  · unfold FJsonObject.HasField
    rw [h1, h2, h3, h4, h5, h6, h7]
    refine ⟨?_, ?_, ?_, ?_, ?_, ?_, ?_⟩ <;> split_ifs with h <;> simp [h]
  · unfold FJsonObject.numberAt
    rw [h1, h2, h3, h4, h5, h6, h7]
    refine ⟨?_, ?_, ?_, ?_, ?_, ?_, ?_⟩ <;> split_ifs with h <;> simp
  · intro v
    cases v with
    | finite m e =>
      simp only [FloatVal.neZero, FloatVal.isZero, FloatVal.gtZero, decide_eq_false_iff_not,
        decide_eq_true_eq, not_not, not_lt, reduceCtorEq, false_or, FloatVal.finite.injEq]
      refine ⟨trivial, ?_⟩
      constructor
      · intro h
        rcases lt_or_eq_of_le h with h | h
        · exact Or.inr ⟨m, e, ⟨rfl, rfl⟩, h⟩
        · exact Or.inl h
      · rintro (h | ⟨m', e', ⟨rfl, rfl⟩, h⟩)
        · exact le_of_eq h
        · exact le_of_lt h
    | posInf => simp [FloatVal.neZero, FloatVal.isZero, FloatVal.gtZero]
    | negInf => simp [FloatVal.neZero, FloatVal.isZero, FloatVal.gtZero]
    | nan => simp [FloatVal.neZero, FloatVal.isZero, FloatVal.gtZero]
  · intro env s OutShotData r Function json_input buffer_size hr hmem
    exact (CalculateDerivedValues_invoke_input env s ShotData OutShotData r hr
      Function json_input buffer_size hmem).1

end UOpenGolfCoachLibrary

/-! ## Theorems: the response read into `OutShotData` -/

namespace UOpenGolfCoachLibrary

/-- Reading the nested object leaves `TotalSpinRPM` and `SpinAxisDegrees` as they were. -/
theorem readDerivedObject_spin (env : Env) (DerivedObject : FJsonObject)
    (OutShotData : FGolfShotData) :
    (readDerivedObject env DerivedObject OutShotData).TotalSpinRPM = OutShotData.TotalSpinRPM
    ∧ (readDerivedObject env DerivedObject OutShotData).SpinAxisDegrees
        = OutShotData.SpinAxisDegrees := by
  unfold readDerivedObject
  cases DerivedObject.HasField "carry_distance_meters" <;>
    cases DerivedObject.HasField "offline_distance_meters" <;>
    cases DerivedObject.HasField "backspin_rpm" <;>
    cases DerivedObject.HasField "sidespin_rpm" <;>
    exact ⟨rfl, rfl⟩

/-- The fields `TotalSpinRPM` and `SpinAxisDegrees` after the response is read depend on the
top level of the response only: the nested object is not consulted for them. -/
theorem readResponse_spin (env : Env) (OutputObject : FJsonObject)
    (OutShotData : FGolfShotData) :
    (readResponse env OutputObject OutShotData).TotalSpinRPM
        = (if OutputObject.HasField "total_spin_rpm" = true
            then env.ToFloat (OutputObject.GetNumberField "total_spin_rpm")
            else OutShotData.TotalSpinRPM)
    ∧ (readResponse env OutputObject OutShotData).SpinAxisDegrees
        = (if OutputObject.HasField "spin_axis_degrees" = true
            then env.ToFloat (OutputObject.GetNumberField "spin_axis_degrees")
            else OutShotData.SpinAxisDegrees) := by
  have hroot : (readRootObject env OutputObject OutShotData).TotalSpinRPM
        = (if OutputObject.HasField "total_spin_rpm" = true
            then env.ToFloat (OutputObject.GetNumberField "total_spin_rpm")
            else OutShotData.TotalSpinRPM)
      ∧ (readRootObject env OutputObject OutShotData).SpinAxisDegrees
        = (if OutputObject.HasField "spin_axis_degrees" = true
            then env.ToFloat (OutputObject.GetNumberField "spin_axis_degrees")
            else OutShotData.SpinAxisDegrees) := by
    unfold readRootObject
    cases OutputObject.HasField "horizontal_launch_angle_degrees" <;>
      cases OutputObject.HasField "total_spin_rpm" <;>
      cases OutputObject.HasField "spin_axis_degrees" <;>
      exact ⟨rfl, rfl⟩
  unfold readResponse
  cases OutputObject.TryGetObjectField "open_golf_coach" with
  | none => exact hroot
  | some DerivedObject =>
    have hd := readDerivedObject_spin env DerivedObject
      (readRootObject env OutputObject OutShotData)
    exact ⟨hd.1.trans hroot.1, hd.2.trans hroot.2⟩

/-- C5, evaluated. The second example shot (backspin 3500 and sidespin -800 given, total spin
and spin axis not given) is sent in an environment where the call succeeds and the response
carries carry 150.5, offline -8.25, backspin 3500, sidespin -800, total spin 3590.25 and spin
axis -12.875 inside `open_golf_coach`. The call returns true; `CarryDistanceMeters`,
`OfflineDistanceMeters`, `BackspinRPM` and `SidespinRPM` of `OutShotData` are the nested
values, but `TotalSpinRPM` and `SpinAxisDegrees` are still 0, the values before the call. For
every environment and response, those two fields are read from the top level of the response
or left as they were. -/
theorem derived_spin_not_read_from_nested_object :
    CalculateDerivedValues exampleEnv LibState.initial ExampleShot2 {}
      = some
          { ret := true
            OutShotData :=
              { BallSpeedMetersPerSecond := FloatVal.ofInt 65
                VerticalLaunchAngleDegrees := FloatVal.ofInt 14
                HorizontalLaunchAngleDegrees := FloatVal.finite 3 (-1)
                TotalSpinRPM := FloatVal.zero
                SpinAxisDegrees := FloatVal.zero
                CarryDistanceMeters := FloatVal.finite 301 (-1)
                OfflineDistanceMeters := FloatVal.finite (-33) (-2)
                BackspinRPM := FloatVal.ofInt 3500
                SidespinRPM := FloatVal.ofInt (-800) }
            state := ⟨1, 2⟩
            calls :=
              [PlatformCall.GetDllHandle
                 "Plugins/OpenGolfCoach/Binaries/Linux/libopengolfcoach.so",
               PlatformCall.GetDllExport 1 "calculate_derived_values_ffi",
               PlatformCall.Invoke 2 "request" 8192] }
    ∧ (exampleResponse2.TryGetObjectField "open_golf_coach").bind
        (fun DerivedObject => DerivedObject.numberAt "total_spin_rpm")
        = some (FloatVal.finite 14361 (-2))
    ∧ (exampleResponse2.TryGetObjectField "open_golf_coach").bind
        (fun DerivedObject => DerivedObject.numberAt "spin_axis_degrees")
        = some (FloatVal.finite (-103) (-3))
    ∧ ∀ (env : Env) (OutputObject : FJsonObject) (OutShotData : FGolfShotData),
        (readResponse env OutputObject OutShotData).TotalSpinRPM
            = (if OutputObject.HasField "total_spin_rpm" = true
                then env.ToFloat (OutputObject.GetNumberField "total_spin_rpm")
                else OutShotData.TotalSpinRPM)
        ∧ (readResponse env OutputObject OutShotData).SpinAxisDegrees
            = (if OutputObject.HasField "spin_axis_degrees" = true
                then env.ToFloat (OutputObject.GetNumberField "spin_axis_degrees")
                else OutShotData.SpinAxisDegrees) :=
  ⟨by decide, by decide, by decide, readResponse_spin⟩

end UOpenGolfCoachLibrary

/-! ## Theorems: the spin round trip -/

namespace SpinDecomposer

/-- The magnitude survives the round trip for every non-negative total spin. -/
theorem roundTrip_fst (T θ : ℝ) (hT : 0 ≤ T) : (roundTrip T θ).1 = T := by
  simp only [roundTrip, recompose, decompose]
  have h : (T * Real.cos (toRadians θ)) ^ 2 + (T * Real.sin (toRadians θ)) ^ 2 = T ^ 2 := by
    have hcs := Real.cos_sq_add_sin_sq (toRadians θ)
    calc (T * Real.cos (toRadians θ)) ^ 2 + (T * Real.sin (toRadians θ)) ^ 2
        = T ^ 2 * (Real.cos (toRadians θ) ^ 2 + Real.sin (toRadians θ) ^ 2) := by ring
      _ = T ^ 2 := by rw [hcs, mul_one]
  rw [h, Real.sqrt_sq hT]

/-- The angle of a point given in polar form, for a positive radius and an angle in
`(-π, π]`. -/
theorem atan2_polar (T a : ℝ) (hT : 0 < T) (ha : a ∈ Set.Ioc (-Real.pi) Real.pi) :
    atan2 (T * Real.sin a) (T * Real.cos a) = a := by
  unfold atan2
  have h : (⟨T * Real.cos a, T * Real.sin a⟩ : ℂ)
      = (T : ℂ) * (Complex.cos a + Complex.sin a * Complex.I) := by
    apply Complex.ext <;> simp [← Complex.ofReal_cos, ← Complex.ofReal_sin]
  rw [h]
  exact Complex.arg_mul_cos_add_sin_mul_I hT ha

/-- The axis survives the round trip for a positive total spin and an axis in
`(-180, 180]`. -/
theorem roundTrip_snd (T θ : ℝ) (hT : 0 < T) (h1 : -180 < θ) (h2 : θ ≤ 180) :
    (roundTrip T θ).2 = θ := by
  simp only [roundTrip, recompose, decompose]
  have hpi := Real.pi_pos
  have ha : toRadians θ ∈ Set.Ioc (-Real.pi) Real.pi := by
    unfold toRadians
    constructor
    · have := mul_lt_mul_of_pos_right h1 hpi
      linarith
    · have := mul_le_mul_of_nonneg_right h2 hpi.le
      linarith
  rw [atan2_polar T _ hT ha]
  unfold toDegrees toRadians
  field_simp

/-- A total spin of zero comes back as the pair (0, 0), whatever the axis. -/
theorem roundTrip_zero (θ : ℝ) : roundTrip 0 θ = (0, 0) := by
  have h0 : (⟨0, 0⟩ : ℂ) = 0 := rfl
  simp [roundTrip, recompose, decompose, atan2, toDegrees, h0]

/-- C8, as stated, fails. The total spin 0 with spin axis 15 is non-negative, and the round
trip returns the axis 0, not 15; the total spin 1 with spin axis 360 comes back with the
axis 0, not 360. -/
theorem round_trip_counterexample :
    ((0 : ℝ) ≤ 0 ∧ (roundTrip 0 15).2 = 0 ∧ (roundTrip 0 15).2 ≠ 15)
    ∧ ((0 : ℝ) ≤ 1 ∧ (roundTrip 1 360).2 = 0 ∧ (roundTrip 1 360).2 ≠ 360) := by
  have h360 : (roundTrip 1 360).2 = 0 := by
    have h : toRadians 360 = 2 * Real.pi := by unfold toRadians; ring
    simp only [roundTrip, recompose, decompose, h, Real.cos_two_pi, Real.sin_two_pi, atan2]
    have h1 : (⟨1 * 1, 1 * 0⟩ : ℂ) = 1 := by apply Complex.ext <;> simp
    rw [h1, Complex.arg_one]
    simp [toDegrees]
  refine ⟨⟨le_refl 0, ?_, ?_⟩, ⟨zero_le_one, h360, ?_⟩⟩
  · rw [roundTrip_zero]
  · rw [roundTrip_zero]; norm_num
  · rw [h360]; norm_num

/-- C8, amended. In exact real arithmetic, for every non-negative total spin and every spin
axis the round trip returns the original total spin; for a total spin greater than zero and
a spin axis greater than -180 and at most 180 degrees it returns the original pair; for a
total spin of zero it returns the pair (0, 0). -/
theorem round_trip_on_principal_range (total_spin spin_axis : ℝ) (h : 0 ≤ total_spin) :
    (roundTrip total_spin spin_axis).1 = total_spin
    ∧ (0 < total_spin → -180 < spin_axis → spin_axis ≤ 180 →
        roundTrip total_spin spin_axis = (total_spin, spin_axis))
    ∧ (total_spin = 0 → roundTrip total_spin spin_axis = (0, 0)) := by
  refine ⟨roundTrip_fst total_spin spin_axis h, ?_, ?_⟩
  · intro hT h1 h2
    exact Prod.ext (roundTrip_fst total_spin spin_axis h)
      (roundTrip_snd total_spin spin_axis hT h1 h2)
  · intro h0
    subst h0
    exact roundTrip_zero spin_axis

/-- C8 at the example input: total spin 2800 with spin axis 15 comes back unchanged. -/
theorem round_trip_on_principal_range_witness : roundTrip 2800 15 = (2800, 15) :=
  (round_trip_on_principal_range 2800 15 (by norm_num)).2.1
    (by norm_num) (by norm_num) (by norm_num)

end SpinDecomposer
